import Mathlib

/-!
Verification of the content-generator core: path sandboxing
(`content_generator/project_registry.py`), subprocess validation
(`content_generator/validators.py`), text utilities
(`content_generator/utils.py`), lesson numbering
(`content_generator/analyzers.py`), tool wrappers
(`content_generator/tools.py`), and the bounded repair loop.

Filesystem paths are embedded as lists of components of their absolute
form; the OS-level resolution performed by `pathlib.Path.resolve` is an
oracle parameter, with `resolveLexical` as its symlink-free instance.
Subprocess execution is an oracle from the argument vector and working
directory to an outcome; spawned calls are accumulated as a trace.
-/

namespace ContentGenerator

/-- A filesystem path: the list of components of its absolute form. -/
abbrev FsPath := List String

/-- Render a path the way `str(pathlib.Path)` renders an absolute path. -/
def renderPath (p : FsPath) : String :=
  "/" ++ String.intercalate "/" p

/-- One step of lexical path resolution. -/
def resolveStep (acc : List String) (c : String) : List String :=
  if c = "." then acc
  else if c = ".." then acc.dropLast
  else acc ++ [c]

/-- Lexical resolution: collapse `.` and `..` components, as
`pathlib.Path.resolve` does on a symlink-free filesystem. -/
def resolveLexical (p : FsPath) : FsPath :=
  p.foldl resolveStep []

/-- `PurePath.is_relative_to`: `p` equals `root` or is a descendant of it
(component-wise containment of absolute paths). -/
def is_relative_to (p root : FsPath) : Bool :=
  root.isPrefixOf p

/-- `models.TargetProject`: the supported target learning projects. -/
inductive TargetProject
  | DSA
  | ASYNC
  | LITESTAR
  | FASTAPI
deriving DecidableEq, Repr

/-- The string value of each `TargetProject` member. -/
def TargetProject.value : TargetProject → String
  | .DSA => "learning-dsa"
  | .ASYNC => "learning-asyncio"
  | .LITESTAR => "learning-litestar"
  | .FASTAPI => "learning-fastapi"

/-- The `TargetProject(name)` enum constructor: returns the member whose
value equals `name`, a `ValueError` otherwise. -/
def TargetProject.ofValue (s : String) : Except String TargetProject :=
  if s = "learning-dsa" then .ok .DSA
  else if s = "learning-asyncio" then .ok .ASYNC
  else if s = "learning-litestar" then .ok .LITESTAR
  else if s = "learning-fastapi" then .ok .FASTAPI
  else .error (s ++ " is not a valid TargetProject")

/-- `models.TemplateCategory`. -/
inductive TemplateCategory
  | LESSON_BASED
  | APP_BASED
deriving DecidableEq, Repr

/-- `models.PROJECT_CATEGORIES`: the dict covers every enum member, so it
is a total function. -/
def PROJECT_CATEGORIES : TargetProject → TemplateCategory
  | .DSA => .LESSON_BASED
  | .ASYNC => .LESSON_BASED
  | .LITESTAR => .APP_BASED
  | .FASTAPI => .APP_BASED

/-- `project_registry.PROJECT_PATHS`, parameterized by the study base
directory (the `CONTENT_GENERATOR_STUDY_BASE` setting). The dict covers
every `TargetProject` member, so lookup never raises `KeyError`. -/
def PROJECT_PATHS (studyBase : FsPath) : TargetProject → FsPath
  | .DSA => studyBase ++ ["learning-dsa"]
  | .ASYNC => studyBase ++ ["learning-asyncio"]
  | .LITESTAR => studyBase ++ ["learning-litestar"]
  | .FASTAPI => studyBase ++ ["learning-fastapi"]

/-- `project_registry.ALLOWED_ROOTS`: the values of `PROJECT_PATHS`. -/
def ALLOWED_ROOTS (studyBase : FsPath) : List FsPath :=
  [PROJECT_PATHS studyBase .DSA, PROJECT_PATHS studyBase .ASYNC,
   PROJECT_PATHS studyBase .LITESTAR, PROJECT_PATHS studyBase .FASTAPI]

/-- `project_registry.get_project_path`: dict lookup in `PROJECT_PATHS`. -/
def get_project_path (studyBase : FsPath) (project : TargetProject) : FsPath :=
  PROJECT_PATHS studyBase project

/-- `project_registry.validate_path`: resolve the path, then accept it iff
some allowed root contains it; `ValueError` otherwise. `resolve` abstracts
`pathlib.Path.resolve` (symlinks followed, relative components collapsed). -/
def validate_path (resolve : FsPath → FsPath) (allowedRoots : List FsPath)
    (path : FsPath) : Except String FsPath :=
  let resolved := resolve path
  if allowedRoots.any (fun root => is_relative_to resolved root) then
    .ok resolved
  else
    .error ("Path " ++ renderPath resolved ++ " is not within any allowed project root")

/-- `tools.py` resolution pattern: `TargetProject(project_name)` followed by
`get_project_path(project)`; the conversion error propagates untouched. -/
def resolve_project_root (studyBase : FsPath) (project_name : String) :
    Except String FsPath :=
  (TargetProject.ofValue project_name).map (get_project_path studyBase)

lemma not_dotdot_foldl_resolveStep :
    ∀ (p : List String) (acc : List String), ".." ∉ acc →
      ".." ∉ p.foldl resolveStep acc := by
  intro p
  induction p with
  | nil => intro acc h; simpa using h
  | cons c cs ih =>
    intro acc h
    simp only [List.foldl_cons]
    apply ih
    by_cases h1 : c = "."
    · simpa [resolveStep, h1] using h
    · by_cases h2 : c = ".."
      · simp only [resolveStep, h1, h2, if_false, if_true]
        intro hmem
        exact h ((List.dropLast_sublist acc).subset hmem)
      · simp only [resolveStep, h1, h2, if_false]
        intro hmem
        rcases List.mem_append.mp hmem with hl | hr
        · exact h hl
        · exact h2 (List.mem_singleton.mp hr).symm

lemma isPrefixOf_self (l : List String) : l.isPrefixOf l = true := by
  induction l with
  | nil => rfl
  | cons a t ih => simp [List.isPrefixOf, ih]

/-- C1: a path whose resolved form is contained in no allowed root makes
`validate_path` raise the path-traversal `ValueError` (and not return a
path); the function performs no retry. -/
theorem validate_path_rejects_escaping_paths
    (resolve : FsPath → FsPath) (roots : List FsPath) (p : FsPath)
    (h : ∀ root ∈ roots, is_relative_to (resolve p) root = false) :
    validate_path resolve roots p =
      .error ("Path " ++ renderPath (resolve p) ++
        " is not within any allowed project root") := by
  have hany : (roots.any (fun root => is_relative_to (resolve p) root)) = false := by
    simp only [List.any_eq_false]
    intro root hr
    simp [h root hr]
  simp [validate_path, hany]

/-- C1 witness: `/tmp/evil.py` is rejected against the real allowed roots. -/
theorem validate_path_rejects_escaping_paths_witness :
    validate_path resolveLexical (ALLOWED_ROOTS ["home", "tony", "study", "python"])
      ["tmp", "evil.py"] =
      .error "Path /tmp/evil.py is not within any allowed project root" :=
  validate_path_rejects_escaping_paths resolveLexical _ _ (by decide)

/-- C2: a path whose resolved form is contained in some allowed root is
accepted and the resolved absolute form is returned, so no `..` component
survives in the returned value; a path equal to an allowed root (already in
resolved form) is itself accepted. -/
theorem validate_path_accepts_contained_paths
    (roots : List FsPath) (p : FsPath)
    (h : ∃ root ∈ roots, is_relative_to (resolveLexical p) root = true) :
    validate_path resolveLexical roots p = .ok (resolveLexical p) ∧
    ".." ∉ resolveLexical p ∧
    (∀ root ∈ roots, resolveLexical root = root →
      validate_path resolveLexical roots root = .ok root) := by
  refine ⟨?_, ?_, ?_⟩
  · obtain ⟨root, hr, hrel⟩ := h
    have hany : (roots.any (fun root => is_relative_to (resolveLexical p) root)) = true :=
      List.any_eq_true.mpr ⟨root, hr, by simp [hrel]⟩
    simp [validate_path, hany]
  · exact not_dotdot_foldl_resolveStep p [] (by simp)
  · intro root hr hres
    have hrel : is_relative_to (resolveLexical root) root = true := by
      rw [hres]; exact isPrefixOf_self root
    have hany : (roots.any (fun r => is_relative_to (resolveLexical root) r)) = true :=
      List.any_eq_true.mpr ⟨root, hr, by simp [hrel]⟩
    simp only [validate_path, hany, if_true]
    rw [hres]

/-- C2 witness: a `..` excursion that resolves back inside `learning-dsa`
is accepted with the `..` stripped, and the root itself is accepted. -/
theorem validate_path_accepts_contained_paths_witness :
    validate_path resolveLexical (ALLOWED_ROOTS ["home", "tony", "study", "python"])
      ["home", "tony", "study", "python", "learning-dsa", "notes", "..", "src", "lesson.py"] =
      .ok ["home", "tony", "study", "python", "learning-dsa", "src", "lesson.py"] ∧
    validate_path resolveLexical (ALLOWED_ROOTS ["home", "tony", "study", "python"])
      ["home", "tony", "study", "python", "learning-dsa"] =
      .ok ["home", "tony", "study", "python", "learning-dsa"] := by
  have h := validate_path_accepts_contained_paths
    (ALLOWED_ROOTS ["home", "tony", "study", "python"])
    ["home", "tony", "study", "python", "learning-dsa", "notes", "..", "src", "lesson.py"]
    ⟨["home", "tony", "study", "python", "learning-dsa"], by decide, by decide⟩
  exact ⟨h.1.trans (by rfl),
    h.2.2 ["home", "tony", "study", "python", "learning-dsa"] (by decide) (by decide)⟩

/-! ### validators.py -/

/-- Python `str.strip()` whitespace (the ASCII part of `\s`). -/
def isPySpace (c : Char) : Bool :=
  c = ' ' || c = '\t' || c = '\n' || c = '\r' || c = '\x0b' || c = '\x0c'

/-- Trim leading and trailing whitespace, as Python `str.strip()`. -/
def pyStrip (cs : List Char) : List Char :=
  (cs.dropWhile isPySpace).rdropWhile isPySpace

/-- `str.strip()` lifted to `String`. -/
def stripStr (s : String) : String :=
  ⟨pyStrip s.data⟩

/-- Outcome of one `subprocess.run` invocation, as observed by the
caller: normal completion with an exit code and captured streams,
`TimeoutExpired`, or `FileNotFoundError`. -/
inductive ToolOutcome
  | completed (returncode : Int) (stdout stderr : String)
  | timedOut
  | notFound

/-- The external process executor: argument vector and working directory
to outcome. -/
abbrev ExecOracle := List String → String → ToolOutcome

/-- One spawned subprocess: its argument vector and working directory. -/
structure ToolCall where
  args : List String
  cwd : String
deriving DecidableEq, Repr

/-- `models.ValidationResult`. -/
structure ValidationResult where
  passed : Bool := false
  errors : List String := []
  ruff_format : String := ""
  ruff_lint : String := ""
  mypy : String := ""
  pytest : String := ""
deriving DecidableEq, Repr

/-- `validators._run_tool`: run one tool, converting every outcome to a
`(passed, output)` pair — non-zero exit keeps the captured text, timeout
and missing executable produce descriptive strings. The second component
is the trace of spawned subprocesses. -/
def run_tool (exec : ExecOracle) (args : List String) (cwd : String)
    (timeout : Nat := 60) : (Bool × String) × List ToolCall :=
  let res : Bool × String :=
    match exec args cwd with
    | .timedOut =>
        (false, "Command timed out after " ++ toString timeout ++ "s: " ++
          String.intercalate " " args)
    | .notFound => (false, "Command not found: " ++ args.headD "")
    | .completed rc stdout stderr => (rc == 0, stripStr (stdout ++ stderr))
  (res, [⟨args, cwd⟩])

/-- `validators.run_ruff_format`. -/
def run_ruff_format (exec : ExecOracle) (file_path : FsPath)
    (project_dir : Option FsPath := none) : (Bool × String) × List ToolCall :=
  let cwd := project_dir.getD file_path.dropLast
  run_tool exec ["uv", "run", "ruff", "format", "--check", renderPath file_path]
    (renderPath cwd)

/-- `validators.run_ruff_check`. -/
def run_ruff_check (exec : ExecOracle) (file_path : FsPath)
    (project_dir : Option FsPath := none) : (Bool × String) × List ToolCall :=
  let cwd := project_dir.getD file_path.dropLast
  run_tool exec ["uv", "run", "ruff", "check", renderPath file_path]
    (renderPath cwd)

/-- `validators.run_mypy_check`. -/
def run_mypy_check (exec : ExecOracle) (file_path : FsPath)
    (project_dir : Option FsPath := none) : (Bool × String) × List ToolCall :=
  let cwd := project_dir.getD file_path.dropLast
  run_tool exec ["uv", "run", "mypy", renderPath file_path] (renderPath cwd)

/-- `validators.run_pytest_doctest`. -/
def run_pytest_doctest (exec : ExecOracle) (file_path : FsPath)
    (project_dir : Option FsPath := none) : (Bool × String) × List ToolCall :=
  let cwd := project_dir.getD file_path.dropLast
  run_tool exec ["uv", "run", "pytest", "--doctest-modules", renderPath file_path]
    (renderPath cwd)

/-- `validators.validate_file`: validate the path, then run the four checks
sequentially and aggregate; `passed` is the conjunction `all([...])` of the
individual outcomes. The trace component collects the spawned subprocesses
in execution order. -/
def validate_file (resolve : FsPath → FsPath) (exec : ExecOracle)
    (allowedRoots : List FsPath) (file_path : FsPath)
    (project_dir : Option FsPath := none) :
    Except String (ValidationResult × List ToolCall) :=
  match validate_path resolve allowedRoots file_path with
  | .error e => .error e
  | .ok _ =>
    let cwd := project_dir.getD file_path.dropLast
    let fmtR := run_ruff_format exec file_path (some cwd)
    let lintR := run_ruff_check exec file_path (some cwd)
    let mypyR := run_mypy_check exec file_path (some cwd)
    let testR := run_pytest_doctest exec file_path (some cwd)
    .ok ({ passed := fmtR.1.1 && lintR.1.1 && mypyR.1.1 && testR.1.1,
           ruff_format := fmtR.1.2, ruff_lint := lintR.1.2,
           mypy := mypyR.1.2, pytest := testR.1.2 },
         fmtR.2 ++ lintR.2 ++ mypyR.2 ++ testR.2)

/-- Test executor: every check exits 1 with output `fail` (mirrors the
mocked `subprocess.run` of the repository's tests). -/
def allFailExec : ExecOracle := fun _ _ => .completed 1 "fail" ""

/-- Test executor: mypy exits 1, every other check exits 0. -/
def mypyFailsExec : ExecOracle := fun args _ =>
  if args.contains "mypy" then .completed 1 "error: boom" ""
  else .completed 0 "" ""

/-- C3: whenever `validate_file` returns a result, its aggregate `passed`
equals the logical AND of the four individual check outcomes, for every
combination of per-check outcomes the executor may produce. -/
theorem validate_file_passed_iff_all_checks
    (resolve : FsPath → FsPath) (exec : ExecOracle) (roots : List FsPath)
    (fp : FsPath) (pd : Option FsPath)
    (res : ValidationResult) (trace : List ToolCall)
    (h : validate_file resolve exec roots fp pd = .ok (res, trace)) :
    res.passed =
      ((run_ruff_format exec fp (some (pd.getD fp.dropLast))).1.1 &&
       (run_ruff_check exec fp (some (pd.getD fp.dropLast))).1.1 &&
       (run_mypy_check exec fp (some (pd.getD fp.dropLast))).1.1 &&
       (run_pytest_doctest exec fp (some (pd.getD fp.dropLast))).1.1) := by
  unfold validate_file at h
  cases hv : validate_path resolve roots fp with
  | error e => rw [hv] at h; exact absurd h (by simp)
  | ok r =>
    rw [hv] at h
    simp only [Except.ok.injEq, Prod.mk.injEq] at h
    rw [← h.1]

/-- C3 witness: a concrete run where mypy fails and the rest pass. -/
theorem validate_file_passed_iff_all_checks_witness :
    (({ passed := false, ruff_format := "", ruff_lint := "",
        mypy := "error: boom", pytest := "" } : ValidationResult)).passed =
      ((run_ruff_format mypyFailsExec ["r", "f.py"] (some ["r"])).1.1 &&
       (run_ruff_check mypyFailsExec ["r", "f.py"] (some ["r"])).1.1 &&
       (run_mypy_check mypyFailsExec ["r", "f.py"] (some ["r"])).1.1 &&
       (run_pytest_doctest mypyFailsExec ["r", "f.py"] (some ["r"])).1.1) :=
  validate_file_passed_iff_all_checks id mypyFailsExec [["r"]] ["r", "f.py"] none
    { passed := false, ruff_format := "", ruff_lint := "",
      mypy := "error: boom", pytest := "" }
    [⟨["uv", "run", "ruff", "format", "--check", "/r/f.py"], "/r"⟩,
     ⟨["uv", "run", "ruff", "check", "/r/f.py"], "/r"⟩,
     ⟨["uv", "run", "mypy", "/r/f.py"], "/r"⟩,
     ⟨["uv", "run", "pytest", "--doctest-modules", "/r/f.py"], "/r"⟩]
    (by rfl)

/-- C4: `_run_tool` converts every outcome of the external command to a
`(passed, output)` pair: timeout and missing executable yield
`passed = false` with the respective descriptive string, and a completed
process passes exactly when its exit code is zero (hence non-zero exit
yields `passed = false` with the captured output). -/
theorem run_tool_never_raises (exec : ExecOracle) (args : List String)
    (cwd : String) (timeout : Nat) :
    (exec args cwd = .timedOut →
      (run_tool exec args cwd timeout).1 =
        (false, "Command timed out after " ++ toString timeout ++ "s: " ++
          String.intercalate " " args)) ∧
    (exec args cwd = .notFound →
      (run_tool exec args cwd timeout).1 =
        (false, "Command not found: " ++ args.headD "")) ∧
    (∀ rc stdout stderr, exec args cwd = .completed rc stdout stderr →
      (run_tool exec args cwd timeout).1 = (rc == 0, stripStr (stdout ++ stderr))) := by
  refine ⟨fun h => ?_, fun h => ?_, fun rc stdout stderr h => ?_⟩ <;>
    simp [run_tool, h]

/-- C4 witness: the three failure shapes at concrete inputs. -/
theorem run_tool_never_raises_witness :
    (run_tool (fun _ _ => .timedOut) ["uv", "run", "mypy", "/r/f.py"] "/r" 60).1 =
      (false, "Command timed out after 60s: uv run mypy /r/f.py") ∧
    (run_tool (fun _ _ => .notFound) ["uv", "run", "mypy", "/r/f.py"] "/r" 60).1 =
      (false, "Command not found: uv") ∧
    (run_tool (fun _ _ => .completed 2 "boom" "") ["uv"] "/r" 60).1.1 = false := by
  refine ⟨?_, ?_, ?_⟩
  · exact ((run_tool_never_raises (fun _ _ => .timedOut)
      ["uv", "run", "mypy", "/r/f.py"] "/r" 60).1 rfl).trans (by rfl)
  · exact ((run_tool_never_raises (fun _ _ => .notFound)
      ["uv", "run", "mypy", "/r/f.py"] "/r" 60).2.1 rfl).trans (by rfl)
  · have h := ((run_tool_never_raises (fun _ _ => .completed 2 "boom" "")
      ["uv"] "/r" 60).2.2) 2 "boom" "" rfl
    simp [h]

/-- C5: within one successful `validate_file` call the four checks are
spawned exactly once each, in the fixed order format-check, lint,
type-check, doctest — independent of any check's outcome — and the
per-check output fields of the result are the outputs of the calls in
that same order. -/
theorem validate_file_runs_all_checks_in_order
    (resolve : FsPath → FsPath) (exec : ExecOracle) (roots : List FsPath)
    (fp : FsPath) (pd : Option FsPath)
    (res : ValidationResult) (trace : List ToolCall)
    (h : validate_file resolve exec roots fp pd = .ok (res, trace)) :
    trace =
      [⟨["uv", "run", "ruff", "format", "--check", renderPath fp],
          renderPath (pd.getD fp.dropLast)⟩,
       ⟨["uv", "run", "ruff", "check", renderPath fp],
          renderPath (pd.getD fp.dropLast)⟩,
       ⟨["uv", "run", "mypy", renderPath fp],
          renderPath (pd.getD fp.dropLast)⟩,
       ⟨["uv", "run", "pytest", "--doctest-modules", renderPath fp],
          renderPath (pd.getD fp.dropLast)⟩] ∧
    res.ruff_format = (run_ruff_format exec fp (some (pd.getD fp.dropLast))).1.2 ∧
    res.ruff_lint = (run_ruff_check exec fp (some (pd.getD fp.dropLast))).1.2 ∧
    res.mypy = (run_mypy_check exec fp (some (pd.getD fp.dropLast))).1.2 ∧
    res.pytest = (run_pytest_doctest exec fp (some (pd.getD fp.dropLast))).1.2 := by
  unfold validate_file at h
  cases hv : validate_path resolve roots fp with
  | error e => rw [hv] at h; exact absurd h (by simp)
  | ok r =>
    rw [hv] at h
    simp only [Except.ok.injEq, Prod.mk.injEq] at h
    refine ⟨?_, ?_, ?_, ?_, ?_⟩
    · rw [← h.2]
      simp [run_ruff_format, run_ruff_check, run_mypy_check, run_pytest_doctest,
        run_tool]
    · rw [← h.1]
    · rw [← h.1]
    · rw [← h.1]
    · rw [← h.1]

/-- C5 witness: the trace of a concrete run where every check fails
matches the predicted fixed order. -/
theorem validate_file_runs_all_checks_in_order_witness :
    ([⟨["uv", "run", "ruff", "format", "--check", "/r/f.py"], "/r"⟩,
      ⟨["uv", "run", "ruff", "check", "/r/f.py"], "/r"⟩,
      ⟨["uv", "run", "mypy", "/r/f.py"], "/r"⟩,
      ⟨["uv", "run", "pytest", "--doctest-modules", "/r/f.py"], "/r"⟩] : List ToolCall) =
      [⟨["uv", "run", "ruff", "format", "--check", renderPath ["r", "f.py"]],
          renderPath ((["r", "f.py"] : FsPath)).dropLast⟩,
       ⟨["uv", "run", "ruff", "check", renderPath ["r", "f.py"]],
          renderPath ((["r", "f.py"] : FsPath)).dropLast⟩,
       ⟨["uv", "run", "mypy", renderPath ["r", "f.py"]],
          renderPath ((["r", "f.py"] : FsPath)).dropLast⟩,
       ⟨["uv", "run", "pytest", "--doctest-modules", renderPath ["r", "f.py"]],
          renderPath ((["r", "f.py"] : FsPath)).dropLast⟩] :=
  (validate_file_runs_all_checks_in_order id allFailExec [["r"]] ["r", "f.py"] none
    { passed := false, ruff_format := "fail", ruff_lint := "fail",
      mypy := "fail", pytest := "fail" }
    [⟨["uv", "run", "ruff", "format", "--check", "/r/f.py"], "/r"⟩,
     ⟨["uv", "run", "ruff", "check", "/r/f.py"], "/r"⟩,
     ⟨["uv", "run", "mypy", "/r/f.py"], "/r"⟩,
     ⟨["uv", "run", "pytest", "--doctest-modules", "/r/f.py"], "/r"⟩]
    (by rfl)).1

/-! ### utils.py -/

/-- The character class `[^\S\n]` (ASCII): whitespace other than newline. -/
def isInlineSpace (c : Char) : Bool :=
  isPySpace c && c ≠ '\n'

/-- The class `\w` under `re.ASCII`: letters, digits, underscore. -/
def isWordChar (c : Char) : Bool :=
  c.isAlphanum || c = '_'

/-- The match of `_OPENING_FENCE_RE` at the start of the text (the regex is
anchored by a caret without MULTILINE): three or more backticks, optional
inline whitespace, an optional language word, optional inline whitespace,
then a newline. Returns the text after the match, `none` when there is no
match. The character classes are pairwise disjoint, so the greedy scan is
the unique parse. -/
def dropOpeningFence (cs : List Char) : Option (List Char) :=
  if (cs.takeWhile (fun c => c = '`')).length < 3 then none
  else
    match (((cs.dropWhile (fun c => c = '`')).dropWhile
        isInlineSpace).dropWhile isWordChar).dropWhile isInlineSpace with
    | '\n' :: rest => some rest
    | _ => none

/-- The match of `_CLOSING_FENCE_RE` (newline, inline whitespace, three or
more backticks, inline whitespace, end of text): because none of the inner
classes matches a newline, the only possible match hangs off the last
newline, so it is found by scanning from the end. Returns the text before
the matched newline. -/
def dropClosingFence (cs : List Char) : Option (List Char) :=
  let r := cs.reverse.dropWhile isInlineSpace
  if (r.takeWhile (fun c => c = '`')).length < 3 then none
  else
    match (r.dropWhile (fun c => c = '`')).dropWhile isInlineSpace with
    | '\n' :: rest => some rest.reverse
    | _ => none

/-- `utils.strip_code_fences`: trim, and when both fence regexes match,
remove the first match of each in sequence (opening first), then trim
again. When the closing fence no longer matches after the opening fence
has been removed, the second substitution removes nothing. -/
def strip_code_fences (cs : List Char) : List Char :=
  let stripped := pyStrip cs
  match dropOpeningFence stripped, dropClosingFence stripped with
  | some afterOpen, some _ =>
    pyStrip (match dropClosingFence afterOpen with
             | some body => body
             | none => afterOpen)
  | _, _ => pyStrip stripped

lemma dropWhile_rdropWhile_self (p : Char → Bool) (l : List Char)
    (h : l.dropWhile p = l) :
    (l.rdropWhile p).dropWhile p = l.rdropWhile p := by
  cases hl : l.rdropWhile p with
  | nil => simp
  | cons x xs =>
    have hpre : l.rdropWhile p <+: l := List.rdropWhile_prefix p l
    rw [hl] at hpre
    obtain ⟨t, ht⟩ := hpre
    have hx : ¬ p x = true := by
      intro hpx
      rw [← ht, List.cons_append, List.dropWhile_cons_of_pos hpx] at h
      have hlen := congrArg List.length h
      have hle : (List.dropWhile p (xs ++ t)).length ≤ (xs ++ t).length :=
        (List.dropWhile_suffix p).length_le
      simp only [List.length_cons] at hlen
      omega
    rw [List.dropWhile_cons_of_neg hx]

lemma pyStrip_idem (cs : List Char) : pyStrip (pyStrip cs) = pyStrip cs := by
  unfold pyStrip
  rw [dropWhile_rdropWhile_self isPySpace _ (List.dropWhile_idempotent isPySpace cs)]
  exact List.rdropWhile_idempotent isPySpace _

/-- C10 counterexample: on the empty fenced block `"```\n```"` both the
opening fence (at the start) and the closing fence (at the end) are
present in the trimmed text, yet the function does not remove one of each:
the two matches share the single newline, so after the opening fence is
removed the closing regex no longer matches and the closing fence survives
in the output. -/
theorem strip_code_fences_counterexample :
    (dropOpeningFence (pyStrip ("```\n```").toList)).isSome = true ∧
    (dropClosingFence (pyStrip ("```\n```").toList)).isSome = true ∧
    strip_code_fences ("```\n```").toList = ("```").toList ∧
    strip_code_fences ("```\n```").toList ≠ ([] : List Char) := by
  refine ⟨by decide, by decide, by decide, by decide⟩

/-- C10 amended: when either fence regex fails to match the trimmed text,
the result is the input changed only by whitespace trimming; when both
match, the opening fence match is removed first and then one closing fence
match is removed from what remains — if the closing regex still matches
there — followed by a final trim. -/
theorem strip_code_fences_amended (cs : List Char) :
    ((dropOpeningFence (pyStrip cs) = none ∨ dropClosingFence (pyStrip cs) = none) →
      strip_code_fences cs = pyStrip cs) ∧
    (∀ afterOpen, dropOpeningFence (pyStrip cs) = some afterOpen →
      (dropClosingFence (pyStrip cs)).isSome = true →
      ((∀ body, dropClosingFence afterOpen = some body →
          strip_code_fences cs = pyStrip body) ∧
       (dropClosingFence afterOpen = none →
          strip_code_fences cs = pyStrip afterOpen))) := by
  constructor
  · intro h
    cases ho : dropOpeningFence (pyStrip cs) <;>
      cases hc : dropClosingFence (pyStrip cs) <;>
      simp_all [strip_code_fences, pyStrip_idem]
  · intro afterOpen ho hc
    cases hc' : dropClosingFence (pyStrip cs) with
    | none => rw [hc'] at hc; exact absurd hc (by simp)
    | some c =>
      constructor
      · intro body hb
        simp [strip_code_fences, ho, hc', hb]
      · intro hb
        simp [strip_code_fences, ho, hc', hb]

/-- C10 amended witness: an unfenced text is only trimmed; a properly
fenced block has both fences removed. -/
theorem strip_code_fences_amended_witness :
    strip_code_fences ("  no fences here\n").toList = ("no fences here").toList ∧
    strip_code_fences ("```python\ncode here\n```").toList = ("code here").toList := by
  constructor
  · exact ((strip_code_fences_amended ("  no fences here\n").toList).1
      (Or.inl (by decide))).trans (by decide)
  · exact (((strip_code_fences_amended ("```python\ncode here\n```").toList).2
      ("code here\n```").toList (by decide) (by decide)).1
      ("code here").toList (by decide)).trans (by decide)

/-! ### analyzers.py -/

/-- The match of `_LESSON_NUMBER_RE` (a leading digit run) on a filename,
converted by `int`; `none` when the name has no leading digit. -/
def leadingNumber (name : String) : Option Nat :=
  let ds := name.toList.takeWhile Char.isDigit
  if ds.isEmpty then none
  else some (ds.foldl (fun acc c => acc * 10 + (c.toNat - '0'.toNat)) 0)

/-- The loop body of `analyzers.next_lesson_number`. -/
def lessonMaxStep (max_num : Nat) (name : String) : Nat :=
  match leadingNumber name with
  | some k => max max_num k
  | none => max_num

/-- `analyzers.next_lesson_number`, over the scanned lesson names: one
greater than the running maximum of the numeric filename prefixes,
starting from zero. -/
def next_lesson_number (lessonNames : List String) : Nat :=
  lessonNames.foldl lessonMaxStep 0 + 1

lemma foldl_lessonMaxStep (names : List String) :
    ∀ acc, names.foldl lessonMaxStep acc =
      max acc ((names.filterMap leadingNumber).foldr max 0) := by
  induction names with
  | nil => intro acc; simp
  | cons n ns ih =>
    intro acc
    simp only [List.foldl_cons, List.filterMap_cons]
    cases hn : leadingNumber n with
    | none => simp only [lessonMaxStep, hn]; exact ih acc
    | some k =>
      simp only [lessonMaxStep, hn, List.foldr_cons]
      rw [ih (max acc k), Nat.max_assoc]

/-- C9: `next_lesson_number` returns one greater than the maximum
leading-digit numeric prefix among the lesson filenames, returns 1 when no
filename has a numeric prefix, and in particular is always at least 1. -/
theorem next_lesson_number_spec (names : List String) :
    next_lesson_number names = (names.filterMap leadingNumber).foldr max 0 + 1 ∧
    ((∀ n ∈ names, leadingNumber n = none) → next_lesson_number names = 1) ∧
    1 ≤ next_lesson_number names := by
  have hmain : next_lesson_number names =
      (names.filterMap leadingNumber).foldr max 0 + 1 := by
    unfold next_lesson_number
    rw [foldl_lessonMaxStep names 0, Nat.zero_max]
  refine ⟨hmain, ?_, ?_⟩
  · intro h
    rw [hmain, List.filterMap_eq_nil_iff.mpr h]
    rfl
  · rw [hmain]
    omega

/-- C9 witness: numbered and unnumbered filename mixes. -/
theorem next_lesson_number_spec_witness :
    next_lesson_number ["003_hash_tables", "intro", "010_graphs"] = 11 ∧
    next_lesson_number ["intro", "helpers"] = 1 :=
  ⟨(next_lesson_number_spec ["003_hash_tables", "intro", "010_graphs"]).1.trans
      (by decide),
   (next_lesson_number_spec ["intro", "helpers"]).2.1 (by decide)⟩

/-! ### tools.py -/

/-- The keyword parameters accepted by `validators.validate_file`, from
its signature `validate_file(file_path, *, project_dir=None)`. -/
def validate_file_keyword_params : List String := ["project_dir"]

/-- The keyword arguments `tools.validate_generated_content` passes in its
call `validators.validate_file(file_path, project_dir=project_path,
run_doctest=run_doctest)`. -/
def validate_generated_content_kwargs : List String := ["project_dir", "run_doctest"]

/-- A Python keyword-argument list binds against a signature without a
`TypeError` iff every keyword names a parameter. -/
def kwargsBind (kwargs params : List String) : Bool :=
  kwargs.all (fun k => params.contains k)

/-- `tools.validate_generated_content` computes
`run_doctest = (category == LESSON_BASED)` for the target project. -/
def run_doctest_flag (project : TargetProject) : Bool :=
  PROJECT_CATEGORIES project == TemplateCategory.LESSON_BASED

/-- C7 (code bug): `validate_file` accepts no run-set — its only keyword
parameter is `project_dir` — while its caller
`validate_generated_content` always passes the `run_doctest` keyword it
computes from the project category, so every real call raises `TypeError`
instead of skipping the doctest check for app-based projects. -/
theorem validate_generated_content_kwarg_mismatch :
    kwargsBind validate_generated_content_kwargs validate_file_keyword_params = false ∧
    validate_generated_content_kwargs.contains "run_doctest" = true ∧
    validate_file_keyword_params.contains "run_doctest" = false ∧
    run_doctest_flag TargetProject.LITESTAR = false ∧
    run_doctest_flag TargetProject.DSA = true := by
  decide

/-- C8: for every identifier string, resolution either returns the unique
root registered for the project whose value is that identifier, or fails
with the conversion `ValueError`, surfaced unchanged to the caller; lookup
of a registered member itself never fails, being total on the enum. -/
theorem resolve_project_root_total (studyBase : FsPath) (s : String) :
    (∃ p : TargetProject, s = p.value ∧
      TargetProject.ofValue s = .ok p ∧
      resolve_project_root studyBase s = .ok (get_project_path studyBase p)) ∨
    ((∀ p : TargetProject, s ≠ p.value) ∧
      resolve_project_root studyBase s =
        .error (s ++ " is not a valid TargetProject")) := by
  by_cases h1 : s = "learning-dsa"
  · exact Or.inl ⟨.DSA, by simp [h1, TargetProject.value],
      by simp [TargetProject.ofValue, h1],
      by simp [resolve_project_root, TargetProject.ofValue, h1, Except.map]⟩
  by_cases h2 : s = "learning-asyncio"
  · exact Or.inl ⟨.ASYNC, by simp [h2, TargetProject.value],
      by simp [TargetProject.ofValue, h1, h2],
      by simp [resolve_project_root, TargetProject.ofValue, h1, h2, Except.map]⟩
  by_cases h3 : s = "learning-litestar"
  · exact Or.inl ⟨.LITESTAR, by simp [h3, TargetProject.value],
      by simp [TargetProject.ofValue, h1, h2, h3],
      by simp [resolve_project_root, TargetProject.ofValue, h1, h2, h3, Except.map]⟩
  by_cases h4 : s = "learning-fastapi"
  · exact Or.inl ⟨.FASTAPI, by simp [h4, TargetProject.value],
      by simp [TargetProject.ofValue, h1, h2, h3, h4],
      by simp [resolve_project_root, TargetProject.ofValue, h1, h2, h3, h4, Except.map]⟩
  refine Or.inr ⟨?_, ?_⟩
  · intro p
    cases p <;> simp [TargetProject.value, h1, h2, h3, h4]
  · simp [resolve_project_root, TargetProject.ofValue, h1, h2, h3, h4, Except.map]

/-! ### The bounded repair loop -/

/-- Modelled from the spec: the repository has no in-process
`run_with_repair` — the retry ceiling lives in the external agent-loop
construct (the validator agent instruction "Maximum 3 repair cycles" in
`content_generator_agent/agent.py`; the test suite expects a LoopAgent
with `max_iterations = 3`). Following the spec's RepairCoordinator design:
validate; return immediately when passed; otherwise, while the iteration
count is below `max_iterations`, invoke the fix step and re-validate;
return the last (failing) result once the ceiling is exhausted. File
states reached by successive fixes are indexed by attempt number, so
`results i` is the validation outcome after `i` fixes. Returns the final
result, the number of validation calls, and the number of fix calls. -/
def run_with_repair_aux (results : Nat → ValidationResult) :
    Nat → Nat → ValidationResult × Nat × Nat
  | idx, 0 => (results idx, 1, 0)
  | idx, remaining + 1 =>
    if (results idx).passed then (results idx, 1, 0)
    else
      let t := run_with_repair_aux results (idx + 1) remaining
      (t.1, t.2.1 + 1, t.2.2 + 1)

/-- Modelled from the spec: `run_with_repair` with the default ceiling of
three repair iterations. -/
def run_with_repair (results : Nat → ValidationResult)
    (max_iterations : Nat := 3) : ValidationResult × Nat × Nat :=
  run_with_repair_aux results 0 max_iterations

/-- C6: with `max_iterations = 3` and a fix step that never produces a
passing result, the loop performs exactly 4 validations (1 initial +
3 repairs) and returns the last failing result; and it stops at the first
passing result, with one fix call per preceding failure and no further
fix invocation. -/
theorem run_with_repair_bounded (results : Nat → ValidationResult) :
    ((∀ i, (results i).passed = false) →
      run_with_repair results 3 = (results 3, 4, 3)) ∧
    (∀ j, j ≤ 3 → (∀ i, i < j → (results i).passed = false) →
      (results j).passed = true →
      run_with_repair results 3 = (results j, j + 1, j)) := by
  constructor
  · intro h
    simp [run_with_repair, run_with_repair_aux, h 0, h 1, h 2]
  · intro j hj hlt hj'
    interval_cases j
    · simp [run_with_repair, run_with_repair_aux, hj']
    · simp [run_with_repair, run_with_repair_aux, hlt 0 (by omega), hj']
    · simp [run_with_repair, run_with_repair_aux, hlt 0 (by omega),
        hlt 1 (by omega), hj']
    · simp [run_with_repair, run_with_repair_aux, hlt 0 (by omega),
        hlt 1 (by omega), hlt 2 (by omega), hj']

/-- C6 witness: a never-passing sequence exhausts the ceiling after 4
validations and 3 fixes; a sequence passing on the second validation stops
with 2 validations and 1 fix. -/
theorem run_with_repair_bounded_witness :
    run_with_repair (fun _ => { passed := false }) 3 =
      ({ passed := false }, 4, 3) ∧
    run_with_repair (fun i => { passed := i == 1 }) 3 =
      ({ passed := true }, 2, 1) := by
  constructor
  · exact (run_with_repair_bounded (fun _ => { passed := false })).1 (fun _ => rfl)
  · have h := (run_with_repair_bounded (fun i => { passed := i == 1 })).2 1
      (by omega) (fun i hi => by interval_cases i; rfl) rfl
    exact h

end ContentGenerator
